import Mathlib

/-!
Shallow embedding of the model-swapping service core
(`src/unnamed/part_000`: Process / ProcessGroup / ProcessManager,
`src/unnamed/part_001`: ConfigLoader), together with theorems that settle
the specification claims about the process lifecycle state machine, the
manager-level swap entry point, shutdown, in-flight accounting and
configuration loading.
-/

namespace ModelSwap

/-- The process lifecycle states, from the `ProcessState` constant table of
the source (STOPPED / STARTING / READY / STOPPING / SHUTDOWN). -/
inductive ProcessState
  | STOPPED
  | STARTING
  | READY
  | STOPPING
  | SHUTDOWN
deriving DecidableEq, Repr

/-- The two stop strategies of the source (`StopStrategy`). -/
inductive StopStrategy
  | IMMEDIATELY
  | WAIT_FOR_INFLIGHT
deriving DecidableEq, Repr

/-- The mutable per-process data relevant to the lifecycle claims: the
current state and the in-flight request counter (`this.state`,
`this.inFlightRequests`).  The counter is an integer because the source
decrements a JavaScript number and then clamps it at 0. -/
structure Proc where
  state : ProcessState
  inFlightRequests : Int
deriving DecidableEq, Repr

/-- The atomic events of a Process.  Each event corresponds to one site in
the source that mutates the process state or the in-flight counter:

* `startBegin`   — `setState(STARTING)` in `Process.start` (only reached
  when the state is STOPPED or STOPPING, the guard of lines 57-77);
* `startReady`   — `setState(READY)` after a successful health check
  (only reached while the state is still STARTING);
* `startFailed`  — `setState(STOPPED)` in the catch block of
  `Process.start` (reached with state STARTING, or STOPPED when the
  child-exit handler fired during the last health-probe sleep);
* `stopBegin`    — `setState(STOPPING)` in `Process.stop` (skipped when
  the state is STOPPED, STOPPING or SHUTDOWN — the early return);
* `childExit`    — `Process.handleProcessExit`: by its switch, every
  state (STOPPING, STARTING, and the default branch covering STOPPED,
  READY and SHUTDOWN) is set to STOPPED;
* `shutdownMark` — `setState(SHUTDOWN)` in `ProcessGroup.shutdown`,
  performed unconditionally on every member;
* `addInFlight` / `removeInFlight` — `addInFlightRequest` /
  `removeInFlightRequest` (the latter decrements and clamps at 0). -/
inductive PEvent
  | startBegin
  | startReady
  | startFailed
  | stopBegin (strategy : StopStrategy)
  | childExit
  | shutdownMark
  | addInFlight
  | removeInFlight
deriving DecidableEq, Repr

/-- One atomic step of a Process.  `none` means the event cannot occur in
that state (its guard in the source fails, or the call returns without
touching the state, as `stop` does on STOPPED/STOPPING/SHUTDOWN). -/
def pstep (p : Proc) (e : PEvent) : Option Proc :=
  match e with
  | .startBegin =>
      if p.state = .STOPPED ∨ p.state = .STOPPING then
        some { p with state := .STARTING }
      else none
  | .startReady =>
      if p.state = .STARTING then some { p with state := .READY } else none
  | .startFailed =>
      if p.state = .STARTING ∨ p.state = .STOPPED then
        some { p with state := .STOPPED }
      else none
  | .stopBegin _ =>
      if p.state = .STOPPED ∨ p.state = .STOPPING ∨ p.state = .SHUTDOWN then
        none
      else some { p with state := .STOPPING }
  | .childExit => some { p with state := .STOPPED }
  | .shutdownMark => some { p with state := .SHUTDOWN }
  | .addInFlight => some { p with inFlightRequests := p.inFlightRequests + 1 }
  | .removeInFlight =>
      let n := p.inFlightRequests - 1
      some { p with inFlightRequests := if n < 0 then 0 else n }

/-- Run a sequence of events from a starting process. -/
def runTrace (p : Proc) : List PEvent → Option Proc
  | [] => some p
  | e :: es =>
      match pstep p e with
      | some q => runTrace q es
      | none => none

/-- The initial process: state STOPPED, no in-flight requests
(constructor of `Process`). -/
def initialProc : Proc := { state := .STOPPED, inFlightRequests := 0 }

/-- The legal transition set of spec §4.1: STOPPED→STARTING,
STARTING→READY, STARTING→STOPPED, READY→STOPPING, STOPPING→STOPPED, and
X→SHUTDOWN for X in STOPPED, READY, STOPPING. -/
def legalTransition : ProcessState → ProcessState → Bool
  | .STOPPED, .STARTING => true
  | .STARTING, .READY => true
  | .STARTING, .STOPPED => true
  | .READY, .STOPPING => true
  | .STOPPING, .STOPPED => true
  | .STOPPED, .SHUTDOWN => true
  | .READY, .SHUTDOWN => true
  | .STOPPING, .SHUTDOWN => true
  | _, _ => false

/-- The state-changing transitions the source performs that are NOT in the
legal set of spec §4.1. -/
def extraTransitions : List (ProcessState × ProcessState) :=
  [(.STOPPING, .STARTING),
   (.STARTING, .STOPPING),
   (.READY, .STOPPED),
   (.SHUTDOWN, .STOPPED),
   (.STARTING, .SHUTDOWN)]

/-- The possible outcomes of the health-probing loop in `Process.start`:
the probe returns 200 within the deadline; the total elapsed time exceeds
`healthCheckTimeout` (the loop exits, `start` throws and the catch block
runs); or the loop observes a state other than STARTING (line 120-123:
`start` returns false immediately without touching the state). -/
inductive HealthOutcome
  | passed
  | timedOut
  | stateChanged (s : ProcessState)
deriving DecidableEq, Repr

/-- The environment a single `Process.start` call runs in: what the waits
and the health probing observe.

* `afterStarting` — the state observed when the wait-while-STARTING loop
  of `start` exits (the loop exits only once the state is no longer
  STARTING);
* `spawnFails`    — whether command parsing / `spawn` throws
  synchronously (caught by the catch block);
* `health`        — the outcome of the health-probing loop. -/
structure StartEnv where
  afterStarting : ProcessState
  spawnFails : Bool
  health : HealthOutcome
deriving DecidableEq, Repr

/-- What a `Process.start` call did: its boolean return value, the process
state when it returns, whether a child was spawned, and whether it killed
the child (the source's `start` contains no kill call on any path — its
catch block only logs and does `setState(STOPPED)`). -/
structure StartResult where
  ok : Bool
  state : ProcessState
  spawned : Bool
  childKilled : Bool
deriving DecidableEq, Repr

/-- Shallow embedding of `Process.start` (src/unnamed/part_000 lines
57-160).  `checkEndpointNone` is whether `config.checkEndpoint` is the
sentinel string for no health check.  Following the source:

1. READY: return true immediately.
2. STARTING: wait until the state leaves STARTING, return success iff the
   state it settles in is READY.
3. Any state other than STOPPED/STOPPING: log and return false.
4. Otherwise `setState(STARTING)`, spawn; a synchronous spawn failure is
   caught — `setState(STOPPED)`, return false.
5. With no health check the state becomes READY right after the 250 ms
   delay; otherwise the probing loop decides: 200 → READY and true;
   state changed out of STARTING → return false leaving that state;
   deadline exceeded → throw, caught — `setState(STOPPED)`, false.
   No branch kills the child. -/
def Process.start (s : ProcessState) (checkEndpointNone : Bool) (env : StartEnv) :
    StartResult :=
  if s = .READY then
    { ok := true, state := s, spawned := false, childKilled := false }
  else if s = .STARTING then
    { ok := env.afterStarting == .READY, state := env.afterStarting,
      spawned := false, childKilled := false }
  else if ¬(s = .STOPPED ∨ s = .STOPPING) then
    { ok := false, state := s, spawned := false, childKilled := false }
  else if env.spawnFails then
    { ok := false, state := .STOPPED, spawned := false, childKilled := false }
  else if checkEndpointNone then
    { ok := true, state := .READY, spawned := true, childKilled := false }
  else
    match env.health with
    | .passed =>
        { ok := true, state := .READY, spawned := true, childKilled := false }
    | .timedOut =>
        { ok := false, state := .STOPPED, spawned := true, childKilled := false }
    | .stateChanged t =>
        { ok := false, state := t, spawned := true, childKilled := false }

/-- What a `Process.stop` call did: the state it leaves, the
`stateChange` events it emitted (old, new pairs), and whether it executed
the stop command path (`cmdStop` or SIGTERM via `stopCommand`). -/
structure StopResult where
  state : ProcessState
  events : List (ProcessState × ProcessState)
  stopCommandIssued : Bool
deriving DecidableEq, Repr

/-- Shallow embedding of `Process.stop` (src/unnamed/part_000 lines
162-179).  If the state is STOPPED, STOPPING or SHUTDOWN it returns at
once: no state change, no event, no stop command.  Otherwise it
transitions to STOPPING (emitting one event), waits for in-flight
requests when the strategy says so, and runs `stopCommand` — which only
acts when there is a child handle (`hasChild`). -/
def Process.stop (strategy : StopStrategy) (s : ProcessState) (hasChild : Bool) :
    StopResult :=
  if s = .STOPPED ∨ s = .STOPPING ∨ s = .SHUTDOWN then
    { state := s, events := [], stopCommandIssued := false }
  else
    { state := .STOPPING, events := [(s, .STOPPING)],
      stopCommandIssued := hasChild }

/-- Association-list lookup keyed by strings: the embedding of
`Map.get` / JavaScript object indexing. -/
def lookupA {α : Type} : List (String × α) → String → Option α
  | [], _ => none
  | kv :: rest, k => if kv.fst = k then some kv.snd else lookupA rest k

/-- Update the value at a key in an association list, leaving every other
entry alone: the embedding of assigning through `Map.get(k)` /
mutating the object held in a map. -/
def updateAssoc {α : Type} (k : String) (f : α → α) :
    List (String × α) → List (String × α)
  | [] => []
  | kv :: rest =>
      if kv.fst = k then (kv.fst, f kv.snd) :: rest
      else kv :: updateAssoc k f rest

/-- The per-group configuration (`config.groups[id]`): the `swap`,
`exclusive` and `persistent` booleans and the member model ids. -/
structure GroupCfg where
  swap : Bool
  exclusive : Bool
  persistent : Bool
  members : List String
deriving DecidableEq, Repr

/-- The slice of the loaded configuration the manager reads: the model
ids (`config.models` keys), the alias table (`config.aliases`), and the
group table (`config.groups`, in insertion order — the order the manager
iterates its `processGroups` map in). -/
structure Config where
  modelIds : List String
  aliases : List (String × String)
  groups : List (String × GroupCfg)
deriving DecidableEq, Repr

/-- The mutable state of a ProcessGroup: `lastUsedProcess` (a model id,
or the empty string) and one Process per member. -/
structure ProcessGroupSt where
  lastUsedProcess : String
  processes : List (String × Proc)
deriving DecidableEq, Repr

/-- The mutable state of the ProcessManager: the groups, the
`lastActiveGroup` reference (by group id), and the one-way `shutdown`
flag set by `shutdownAll`. -/
structure ManagerSt where
  cfg : Config
  processGroups : List (String × ProcessGroupSt)
  lastActiveGroup : Option String
  shutdown : Bool
deriving DecidableEq, Repr

/-- The synchronous state effect of `Process.stop` as seen by group-level
code: STOPPED/STOPPING/SHUTDOWN are left alone (early return), any other
state becomes STOPPING.  The in-flight counter is untouched. -/
def procStop (p : Proc) : Proc :=
  if p.state = .STOPPED ∨ p.state = .STOPPING ∨ p.state = .SHUTDOWN then p
  else { p with state := .STOPPING }

/-- `Process.stop(WAIT_FOR_INFLIGHT)` followed by the manager-level busy
wait `while (oldProcess.getCurrentState() === STOPPING)` — the wait exits
once the child-exit handler has taken the process from STOPPING to
STOPPED, so the composite leaves a STOPPING process at STOPPED. -/
def procStopAwaitExit (p : Proc) : Proc :=
  let q := procStop p
  if q.state = .STOPPING then { q with state := .STOPPED } else q

/-- `ProcessGroup.stopProcesses`: stop every member (the promise resolves
once each `stop` call has run, i.e. once each member has been taken to
STOPPING; becoming STOPPED happens later via the child-exit handler). -/
def ProcessGroupSt.stopProcesses (g : ProcessGroupSt) : ProcessGroupSt :=
  { g with processes := g.processes.map fun pr => (pr.fst, procStop pr.snd) }

/-- `ProcessGroup.shutdown`: for every member, call `stop(IMMEDIATELY)`
and then `setState(SHUTDOWN)` unconditionally. -/
def ProcessGroupSt.shutdownGroup (g : ProcessGroupSt) : ProcessGroupSt :=
  { g with processes :=
      g.processes.map fun pr =>
        (pr.fst, { procStop pr.snd with state := ProcessState.SHUTDOWN }) }

/-- The errors `ProcessManager.swapProcessGroup` can throw.  The source
throws exactly two: name resolution failure and group lookup failure.
There is no shutting-down error: `swapProcessGroup` never consults the
`shutdown` flag. -/
inductive SwapError
  | unknownModel (requested : String)
  | groupNotFound (requested : String)
deriving DecidableEq, Repr

/-- Name resolution as written at the top of `swapProcessGroup`
(line 422): the alias table first, then a model-id hit, else failure. -/
def ProcessManager.realNameForSwap (cfg : Config) (requested : String) :
    Option String :=
  match lookupA cfg.aliases requested with
  | some m => some m
  | none => if cfg.modelIds.contains requested then some requested else none

/-- `ProcessManager.findGroupByModelName`: the first group whose member
list contains the model (iteration order of the groups map). -/
def ProcessManager.findGroupByModelName (cfg : Config) (modelName : String) :
    Option String :=
  match cfg.groups.find? (fun gc => gc.snd.members.contains modelName) with
  | some gc => some gc.fst
  | none => none

/-- The `persistent` flag of a group, read off the configuration the
ProcessGroup was built from. -/
def persistentOf (cfg : Config) (gid : String) : Bool :=
  match lookupA cfg.groups gid with
  | some gc => gc.persistent
  | none => false

/-- `stopProcesses(WAIT_FOR_INFLIGHT)` on one group followed by clearing
its `lastUsedProcess`, as the cross-group and exclusive branches of
`swapProcessGroup` do. -/
def stopGroupAndClear (groups : List (String × ProcessGroupSt)) (gid : String) :
    List (String × ProcessGroupSt) :=
  updateAssoc gid (fun g => { g.stopProcesses with lastUsedProcess := "" }) groups

/-- The exclusive-mode loop of `swapProcessGroup` (lines 448-456): for
every group other than the target that is not persistent, stop its
processes and clear its `lastUsedProcess`. -/
def stopOtherNonPersistentGroups (gid : String)
    (cfgGroups : List (String × GroupCfg))
    (groups : List (String × ProcessGroupSt)) : List (String × ProcessGroupSt) :=
  cfgGroups.foldl
    (fun acc gc =>
      if gc.fst ≠ gid ∧ gc.snd.persistent = false then stopGroupAndClear acc gc.fst
      else acc)
    groups

/-- The cross-group branch of `swapProcessGroup` (lines 435-445): when a
last active group exists, differs from the target, and neither it nor
the target is persistent, stop it and clear its `lastUsedProcess`. -/
def crossGroupStop (cfg : Config) (lastActiveGroup : Option String) (gid : String)
    (groups : List (String × ProcessGroupSt)) : List (String × ProcessGroupSt) :=
  match lastActiveGroup with
  | some lag =>
      if lag ≠ gid ∧ persistentOf cfg lag = false ∧ persistentOf cfg gid = false
      then stopGroupAndClear groups lag
      else groups
  | none => groups

/-- The body of the within-group branch of `swapProcessGroup`
(lines 459-472), acting on the target group: if the group swaps
(`processGroup.swap`) and its `lastUsedProcess` differs from the resolved
model, is non-empty, and names an existing member whose state is READY,
stop that member with WAIT_FOR_INFLIGHT and wait until it leaves
STOPPING; in every other case the group is left untouched. -/
def swapStopOldProcess (cfg : Config) (gid realModelName : String)
    (gSt : ProcessGroupSt) : ProcessGroupSt :=
  if (match lookupA cfg.groups gid with
      | some gc => gc.swap
      | none => false) = true
      ∧ gSt.lastUsedProcess ≠ realModelName ∧ gSt.lastUsedProcess ≠ "" then
    match lookupA gSt.processes gSt.lastUsedProcess with
    | some oldP =>
        if oldP.state = .READY then
          { gSt with processes :=
              updateAssoc gSt.lastUsedProcess procStopAwaitExit gSt.processes }
        else gSt
    | none => gSt
  else gSt

/-- The within-group branch of `swapProcessGroup` (lines 459-472): the
target group is updated in place by `swapStopOldProcess`; no other group
is touched. -/
def withinGroupStop (cfg : Config) (gid realModelName : String)
    (groups : List (String × ProcessGroupSt)) : List (String × ProcessGroupSt) :=
  updateAssoc gid (swapStopOldProcess cfg gid realModelName) groups

/-- Whether the target group is in exclusive mode. -/
def exclusiveOf (cfg : Config) (gid : String) : Bool :=
  match lookupA cfg.groups gid with
  | some gc => gc.exclusive
  | none => false

/-- Shallow embedding of `ProcessManager.swapProcessGroup`
(src/unnamed/part_000 lines 421-479).  Resolve the requested name; find
the owning group; run the cross-group, exclusive-mode and within-group
stop branches; then set `lastActiveGroup` to the target group and the
group's `lastUsedProcess` to the resolved model — both unconditionally —
and return the group together with the resolved model name.  No branch
invokes `start` on any Process, and the `shutdown` flag is never read. -/
def ProcessManager.swapProcessGroup (st : ManagerSt) (requestedModel : String) :
    Except SwapError (ManagerSt × String × String) :=
  match ProcessManager.realNameForSwap st.cfg requestedModel with
  | none => .error (.unknownModel requestedModel)
  | some realModelName =>
    match ProcessManager.findGroupByModelName st.cfg realModelName with
    | none => .error (.groupNotFound requestedModel)
    | some gid =>
        let groups1 := crossGroupStop st.cfg st.lastActiveGroup gid st.processGroups
        let groups2 :=
          if exclusiveOf st.cfg gid then
            stopOtherNonPersistentGroups gid st.cfg.groups groups1
          else groups1
        let groups3 := withinGroupStop st.cfg gid realModelName groups2
        let groups4 :=
          updateAssoc gid (fun g => { g with lastUsedProcess := realModelName })
            groups3
        .ok ({ st with processGroups := groups4, lastActiveGroup := some gid },
             gid, realModelName)

/-- Shallow embedding of `ProcessManager.shutdownAll` (lines 501-505):
set the `shutdown` flag, then shut every group down. -/
def ProcessManager.shutdownAll (st : ManagerSt) : ManagerSt :=
  { st with
      shutdown := true,
      processGroups := st.processGroups.map fun g => (g.fst, g.snd.shutdownGroup) }

/-- The Process a caller reaches through group `gid` and model id `m` in
a manager state. -/
def lookupProcess (st : ManagerSt) (gid m : String) : Option Proc :=
  (lookupA st.processGroups gid).bind fun g => lookupA g.processes m

/-- The per-model facts the port-assignment pass of
`ConfigLoader.loadConfig` depends on: the model id and whether the
original `cmd` and `proxy` strings contain the PORT placeholder
(`cmdHasPortOriginal` / `proxyHasPortOriginal`, lines 266-267). -/
structure ModelPortInfo where
  id : String
  cmdHasPort : Bool
  proxyHasPort : Bool
deriving DecidableEq, Repr

/-- The fatal configuration error of the port pass: a model whose proxy
references the PORT placeholder while its cmd does not (line 270-271). -/
inductive ConfigError
  | proxyPortWithoutCmd (modelId : String)
deriving DecidableEq, Repr

/-- Shallow embedding of the port-assignment loop of
`ConfigLoader.loadConfig` (src/unnamed/part_001 lines 221-277, restricted
to the PORT logic).  The models are visited in order (the source visits
`Object.keys(models).sort()`); `nextPort` starts at `startPort`.  Per
model: if either the cmd or the proxy references PORT, then proxy-only is
fatal, and otherwise the model receives the current `nextPort`, which is
then incremented; models that never mention PORT receive no port. -/
def assignPorts (nextPort : Nat) :
    List ModelPortInfo → Except ConfigError (List (String × Option Nat))
  | [] => .ok []
  | m :: rest =>
      if m.cmdHasPort || m.proxyHasPort then
        if !m.cmdHasPort && m.proxyHasPort then
          .error (.proxyPortWithoutCmd m.id)
        else
          match assignPorts (nextPort + 1) rest with
          | .ok tail => .ok ((m.id, some nextPort) :: tail)
          | .error e => .error e
      else
        match assignPorts nextPort rest with
        | .ok tail => .ok ((m.id, none) :: tail)
        | .error e => .error e

/-- The resolved ports of a port assignment, in assignment order. -/
def portsOf (l : List (String × Option Nat)) : List Nat :=
  l.filterMap (fun pr => pr.snd)

/-- How many models of the list reference the PORT placeholder at all
(in cmd or proxy) — each of these consumes one port number. -/
def countPortModels (ms : List ModelPortInfo) : Nat :=
  (ms.filter (fun m => m.cmdHasPort || m.proxyHasPort)).length

/-- Shallow embedding of the head of `ConfigLoader.loadConfig`
(src/unnamed/part_001 lines 193-200): the health-check-timeout clamp —
values below 15 are silently raised to 15, with no error path — followed
by the `startPort` validation, which throws when the port is below 1.
Returns the loaded `healthCheckTimeout`. -/
def ConfigLoader.validateBasics (healthCheckTimeout : Int) (startPort : Int) :
    Except String Int :=
  let t := if healthCheckTimeout < 15 then 15 else healthCheckTimeout
  if startPort < 1 then .error "startPort must be greater than 1"
  else .ok t

/-- A one-model, one-group fixture: model "A" alone in the non-persistent
group "G" (the shape of the synthetic default group: swap and exclusive
set, persistent not). -/
def cfgA : Config :=
  { modelIds := ["A"],
    aliases := [],
    groups := [("G",
      { swap := true, exclusive := true, persistent := false, members := ["A"] })] }

/-- The manager state right after construction for `cfgA`: every Process
STOPPED with no in-flight requests, no last active group, the shutdown
flag clear. -/
def stA : ManagerSt :=
  { cfg := cfgA,
    processGroups := [("G",
      { lastUsedProcess := "",
        processes := [("A", { state := .STOPPED, inFlightRequests := 0 })] })],
    lastActiveGroup := none,
    shutdown := false }

/-- A fixture whose single group "P" is persistent and holds model "A". -/
def cfgP : Config :=
  { modelIds := ["A"],
    aliases := [],
    groups := [("P",
      { swap := true, exclusive := false, persistent := true, members := ["A"] })] }

/-- The freshly constructed manager state for `cfgP`. -/
def stP : ManagerSt :=
  { cfg := cfgP,
    processGroups := [("P",
      { lastUsedProcess := "",
        processes := [("A", { state := .STOPPED, inFlightRequests := 0 })] })],
    lastActiveGroup := none,
    shutdown := false }

/-! ### Helper lemmas on association lists -/

theorem lookupA_updateAssoc_self {α : Type} (l : List (String × α)) (k : String)
    (f : α → α) : lookupA (updateAssoc k f l) k = (lookupA l k).map f := by
  induction l with
  | nil => rfl
  | cons kv rest ih =>
      by_cases hk : kv.fst = k <;> simp [updateAssoc, lookupA, hk, ih]

theorem lookupA_updateAssoc_ne {α : Type} (l : List (String × α)) (k k2 : String)
    (f : α → α) (h : k2 ≠ k) :
    lookupA (updateAssoc k f l) k2 = lookupA l k2 := by
  induction l with
  | nil => rfl
  | cons kv rest ih =>
      by_cases hk : kv.fst = k
      · simp [updateAssoc, lookupA, hk, Ne.symm h]
      · by_cases hk2 : kv.fst = k2 <;> simp [updateAssoc, lookupA, hk, hk2, h, ih]

theorem lookupA_stopGroupAndClear_ne (groups : List (String × ProcessGroupSt))
    (lag gid : String) (h : lag ≠ gid) :
    lookupA (stopGroupAndClear groups lag) gid = lookupA groups gid :=
  lookupA_updateAssoc_ne groups lag gid _ (fun he => h he.symm)

theorem lookupA_crossGroupStop (cfg : Config) (lastActive : Option String)
    (gid : String) (groups : List (String × ProcessGroupSt)) :
    lookupA (crossGroupStop cfg lastActive gid groups) gid = lookupA groups gid := by
  cases lastActive with
  | none => rfl
  | some lag =>
      by_cases hcond :
          lag ≠ gid ∧ persistentOf cfg lag = false ∧ persistentOf cfg gid = false
      · rw [show crossGroupStop cfg (some lag) gid groups
              = stopGroupAndClear groups lag from by
            simp only [crossGroupStop, if_pos hcond]]
        exact lookupA_stopGroupAndClear_ne groups lag gid hcond.1
      · rw [show crossGroupStop cfg (some lag) gid groups = groups from by
            simp only [crossGroupStop, if_neg hcond]]

theorem lookupA_stopOtherNonPersistentGroups (gid : String)
    (cfgGroups : List (String × GroupCfg)) (groups : List (String × ProcessGroupSt)) :
    lookupA (stopOtherNonPersistentGroups gid cfgGroups groups) gid
      = lookupA groups gid := by
  induction cfgGroups generalizing groups with
  | nil => rfl
  | cons gc rest ih =>
      simp only [stopOtherNonPersistentGroups, List.foldl_cons]
      split
      · next hcond =>
          rw [show (List.foldl _ _ rest : List (String × ProcessGroupSt))
                = stopOtherNonPersistentGroups gid rest
                    (stopGroupAndClear groups gc.fst) from rfl,
              ih, lookupA_stopGroupAndClear_ne groups gc.fst gid hcond.1]
      · exact ih groups

theorem swapStopOldProcess_lookup_target (cfg : Config) (gid rm : String)
    (gSt : ProcessGroupSt) :
    lookupA (swapStopOldProcess cfg gid rm gSt).processes rm
      = lookupA gSt.processes rm := by
  unfold swapStopOldProcess
  by_cases hcond :
      (match lookupA cfg.groups gid with
       | some gc => gc.swap
       | none => false) = true
      ∧ gSt.lastUsedProcess ≠ rm ∧ gSt.lastUsedProcess ≠ ""
  · rw [if_pos hcond]
    split
    · split
      · exact lookupA_updateAssoc_ne gSt.processes gSt.lastUsedProcess rm
          procStopAwaitExit (fun he => hcond.2.1 he.symm)
      · rfl
    · rfl
  · rw [if_neg hcond]

theorem withinGroupStop_lookup_target (cfg : Config) (gid rm : String)
    (groups : List (String × ProcessGroupSt)) :
    (lookupA (withinGroupStop cfg gid rm groups) gid).bind
        (fun g => lookupA g.processes rm)
      = (lookupA groups gid).bind (fun g => lookupA g.processes rm) := by
  unfold withinGroupStop
  rw [lookupA_updateAssoc_self]
  cases hg : lookupA groups gid with
  | none => rfl
  | some gSt =>
      simpa using swapStopOldProcess_lookup_target cfg gid rm gSt

/-! ### Claim C2 — the lifecycle transition set -/

/-- Counterexample for claim C2: SHUTDOWN is not terminal.  Starting a
process, stopping it and marking it SHUTDOWN during group shutdown is a
run of the machine; when the SIGTERMed child then exits, the child-exit
handler's default branch moves the state from SHUTDOWN back to STOPPED —
a transition outside the legal set of spec §4.1. -/
theorem shutdown_state_not_terminal :
    runTrace initialProc
        [.startBegin, .startReady, .stopBegin .IMMEDIATELY, .shutdownMark,
         .childExit]
      = some { state := .STOPPED, inFlightRequests := 0 }
    ∧ pstep { state := .SHUTDOWN, inFlightRequests := 0 } PEvent.childExit
        = some { state := .STOPPED, inFlightRequests := 0 }
    ∧ legalTransition .SHUTDOWN .STOPPED = false := by
  exact ⟨by decide, by decide, by decide⟩

/-- Claim C2, amended: every state-changing transition the source
performs is either in the legal set of spec §4.1 or one of the five
extra transitions the code exhibits — STOPPING→STARTING (`start` accepts
STOPPING), STARTING→STOPPING (`stop` during startup), READY→STOPPED and
SHUTDOWN→STOPPED (the child-exit handler's default branch), and
STARTING→SHUTDOWN (group shutdown marks every member).  In particular
SHUTDOWN is not terminal. -/
theorem transitions_follow_code_set (p q : Proc) (e : PEvent)
    (h : pstep p e = some q) :
    q.state = p.state ∨ legalTransition p.state q.state = true
      ∨ (p.state, q.state) ∈ extraTransitions := by
  obtain ⟨ps, n⟩ := p
  cases e <;> cases ps
  all_goals simp [pstep] at h
  all_goals subst h
  all_goals simp [legalTransition, extraTransitions]

/-- Witness for `transitions_follow_code_set` at a concrete step. -/
theorem transitions_follow_code_set_witness :
    pstep initialProc PEvent.startBegin
        = some { state := .STARTING, inFlightRequests := 0 }
    ∧ (({ state := .STARTING, inFlightRequests := 0 } : Proc).state
          = initialProc.state
        ∨ legalTransition initialProc.state ProcessState.STARTING = true
        ∨ (initialProc.state, ProcessState.STARTING) ∈ extraTransitions) :=
  ⟨by decide,
   transitions_follow_code_set initialProc
     { state := .STARTING, inFlightRequests := 0 } PEvent.startBegin (by decide)⟩

/-! ### Claim C6 — the in-flight counter -/

/-- Counterexample for claim C6: a READY process with one in-flight
request that is stopped with IMMEDIATELY and whose child then exits ends
at state STOPPED with the in-flight counter still 1 — the counter is not
0 in the STOPPED state, because neither `stop(IMMEDIATELY)` nor the
child-exit handler waits for or resets in-flight requests. -/
theorem stopped_with_positive_inflight :
    runTrace initialProc
        [.startBegin, .startReady, .addInFlight, .stopBegin .IMMEDIATELY,
         .childExit]
      = some { state := .STOPPED, inFlightRequests := 1 } := by decide

theorem pstep_inFlight_nonneg (p q : Proc) (e : PEvent) (h : pstep p e = some q)
    (hp : 0 ≤ p.inFlightRequests) : 0 ≤ q.inFlightRequests := by
  obtain ⟨ps, n⟩ := p
  cases e <;> cases ps
  all_goals simp [pstep] at h
  all_goals subst h
  all_goals simp_all
  all_goals try split
  all_goals omega

theorem runTrace_inFlight_nonneg (es : List PEvent) (p q : Proc)
    (h : runTrace p es = some q) (hp : 0 ≤ p.inFlightRequests) :
    0 ≤ q.inFlightRequests := by
  induction es generalizing p with
  | nil =>
      simp only [runTrace, Option.some.injEq] at h
      exact h ▸ hp
  | cons e es ih =>
      simp only [runTrace] at h
      cases hstep : pstep p e with
      | none => rw [hstep] at h; exact absurd h (by simp)
      | some r =>
          rw [hstep] at h
          exact ih r h (pstep_inFlight_nonneg p r e hstep hp)

/-- Claim C6, amended: along every run of the process machine from the
initial state, the in-flight counter stays ≥ 0 (`removeInFlightRequest`
clamps the decrement at 0) — but the counter need not be 0 while the
state is STOPPED or SHUTDOWN, because `stop(IMMEDIATELY)`, the child-exit
handler and group shutdown do not wait for in-flight requests. -/
theorem inFlight_nonneg_invariant (es : List PEvent) (q : Proc)
    (h : runTrace initialProc es = some q) : 0 ≤ q.inFlightRequests :=
  runTrace_inFlight_nonneg es initialProc q h (by decide)

/-- Witness for `inFlight_nonneg_invariant` on a concrete run. -/
theorem inFlight_nonneg_invariant_witness :
    runTrace initialProc [PEvent.addInFlight]
        = some { state := .STOPPED, inFlightRequests := 1 }
    ∧ (0 : Int) ≤ ({ state := .STOPPED, inFlightRequests := 1 } : Proc).inFlightRequests :=
  ⟨by decide,
   inFlight_nonneg_invariant [PEvent.addInFlight]
     { state := .STOPPED, inFlightRequests := 1 } (by decide)⟩

/-! ### Claim C7 — start is idempotent and coalescing -/

/-- Claim C7: `start` on a READY process returns success immediately
without spawning; on a STARTING process it spawns nothing, waits until
the state leaves STARTING and returns success exactly when the state it
settles in is READY; and on any state that is none of STOPPED, STOPPING,
STARTING, READY (i.e. SHUTDOWN) it fails without side effects. -/
theorem start_idempotent_coalescing (checkNone : Bool) (env : StartEnv)
    (hwait : env.afterStarting ≠ ProcessState.STARTING) :
    Process.start .READY checkNone env
        = { ok := true, state := .READY, spawned := false, childKilled := false }
    ∧ ((Process.start .STARTING checkNone env).spawned = false
        ∧ (Process.start .STARTING checkNone env).state = env.afterStarting
        ∧ ((Process.start .STARTING checkNone env).ok = true
            ↔ env.afterStarting = .READY))
    ∧ (∀ s : ProcessState, s ≠ .STOPPED → s ≠ .STOPPING → s ≠ .STARTING →
        s ≠ .READY →
        Process.start s checkNone env
          = { ok := false, state := s, spawned := false, childKilled := false }) := by
  refine ⟨by simp [Process.start], ⟨?_, ?_, ?_⟩, ?_⟩
  · simp [Process.start]
  · simp [Process.start]
  · simp [Process.start]
  · intro s h1 h2 h3 h4
    cases s <;> simp_all [Process.start]

/-- Witness for `start_idempotent_coalescing` at a concrete
environment. -/
theorem start_idempotent_coalescing_witness :
    ({ afterStarting := .READY, spawnFails := false,
       health := .passed } : StartEnv).afterStarting ≠ ProcessState.STARTING
    ∧ Process.start .READY false
          { afterStarting := .READY, spawnFails := false, health := .passed }
        = { ok := true, state := .READY, spawned := false, childKilled := false } :=
  ⟨by decide,
   (start_idempotent_coalescing false
     { afterStarting := .READY, spawnFails := false, health := .passed }
     (by decide)).1⟩

/-! ### Claim C8 — stop is a no-op on inactive states -/

/-- Claim C8: `stop` called in state STOPPED, STOPPING or SHUTDOWN, with
either strategy and with or without a live child handle, returns
immediately: the state is unchanged, no stateChange event is emitted,
and no stop command or signal is executed. -/
theorem stop_noop_on_inactive_states (strategy : StopStrategy)
    (s : ProcessState) (hasChild : Bool)
    (h : s = .STOPPED ∨ s = .STOPPING ∨ s = .SHUTDOWN) :
    Process.stop strategy s hasChild
      = { state := s, events := [], stopCommandIssued := false } := by
  simp [Process.stop, h]

/-- Witness for `stop_noop_on_inactive_states` on STOPPED. -/
theorem stop_noop_on_inactive_states_witness :
    (ProcessState.STOPPED = ProcessState.STOPPED
      ∨ ProcessState.STOPPED = ProcessState.STOPPING
      ∨ ProcessState.STOPPED = ProcessState.SHUTDOWN)
    ∧ Process.stop .WAIT_FOR_INFLIGHT .STOPPED true
        = { state := .STOPPED, events := [], stopCommandIssued := false } :=
  ⟨Or.inl rfl,
   stop_noop_on_inactive_states .WAIT_FOR_INFLIGHT .STOPPED true (Or.inl rfl)⟩

/-! ### Claim C4 — health-check timeout -/

/-- Counterexample for claim C4: on a health-check timeout the source
transitions to STOPPED and returns failure, but it does NOT kill the
child — the catch block of `Process.start` only logs and calls
`setState(STOPPED)`; no kill or stop command appears on the timeout
path, so the spawned child is left running. -/
theorem health_timeout_child_not_killed :
    Process.start .STOPPED false
        { afterStarting := .STOPPED, spawnFails := false, health := .timedOut }
      = { ok := false, state := .STOPPED, spawned := true, childKilled := false } := by
  decide

/-- Claim C4, amended: when health probing does not succeed within
`healthCheckTimeout` (the state staying STARTING throughout), the
Process transitions to STOPPED and `start` returns failure — but the
child process is not killed; it is left running. -/
theorem health_timeout_stops_without_kill (s : ProcessState) (env : StartEnv)
    (hs : s = .STOPPED ∨ s = .STOPPING) (hspawn : env.spawnFails = false)
    (hh : env.health = .timedOut) :
    Process.start s false env
      = { ok := false, state := .STOPPED, spawned := true, childKilled := false } := by
  rcases hs with rfl | rfl <;> simp [Process.start, hspawn, hh]

/-- Witness for `health_timeout_stops_without_kill`. -/
theorem health_timeout_stops_without_kill_witness :
    ((ProcessState.STOPPED = ProcessState.STOPPED
        ∨ ProcessState.STOPPED = ProcessState.STOPPING)
      ∧ ({ afterStarting := .STOPPED, spawnFails := false,
           health := .timedOut } : StartEnv).spawnFails = false)
    ∧ Process.start .STOPPED false
          { afterStarting := .STOPPED, spawnFails := false, health := .timedOut }
        = { ok := false, state := .STOPPED, spawned := true, childKilled := false } :=
  ⟨⟨Or.inl rfl, rfl⟩,
   health_timeout_stops_without_kill .STOPPED
     { afterStarting := .STOPPED, spawnFails := false, health := .timedOut }
     (Or.inl rfl) rfl rfl⟩

/-! ### Claim C10 — healthCheckTimeout clamp -/

/-- Claim C10: for every incoming `healthCheckTimeout`, provided the
`startPort` check passes, loading does not fail on the timeout value: a
value below 15 is silently clamped to exactly 15, and the loaded value
always satisfies `healthCheckTimeout ≥ 15` when the input was below 15,
and is left unchanged (hence still ≥ 15) otherwise. -/
theorem healthCheckTimeout_clamped (t sp : Int) (hsp : 1 ≤ sp) :
    ∃ r, ConfigLoader.validateBasics t sp = .ok r
      ∧ (t < 15 → r = 15) ∧ (15 ≤ t → r = t) ∧ 15 ≤ r := by
  refine ⟨if t < 15 then 15 else t, ?_, ?_, ?_, ?_⟩
  · unfold ConfigLoader.validateBasics
    rw [if_neg (by omega : ¬sp < 1)]
  · intro ht; rw [if_pos ht]
  · intro ht; rw [if_neg (by omega : ¬t < 15)]
  · by_cases ht : t < 15
    · rw [if_pos ht]
    · rw [if_neg ht]; omega

/-- Witness for `healthCheckTimeout_clamped` at timeout 3. -/
theorem healthCheckTimeout_clamped_witness :
    (1 : Int) ≤ 5800
    ∧ ∃ r, ConfigLoader.validateBasics 3 5800 = .ok r
        ∧ ((3 : Int) < 15 → r = 15) ∧ ((15 : Int) ≤ 3 → r = 3) ∧ 15 ≤ r :=
  ⟨by decide, healthCheckTimeout_clamped 3 5800 (by decide)⟩

/-! ### Claim C1 — what the manager-level swap entry point does -/

/-- Counterexample for claim C1: on a fresh manager with the single model
"A" in group "G" (all processes STOPPED), `swapProcessGroup("A")`
succeeds, yet it returns the ProcessGroup id and the resolved name — not
a Process — and the target's Process is still STOPPED in the returned
state: `start` was never invoked and no Process is READY. -/
theorem swap_leaves_target_stopped_counterexample :
    ProcessManager.swapProcessGroup stA "A"
      = .ok ({ cfg := cfgA,
               processGroups := [("G",
                 { lastUsedProcess := "A",
                   processes :=
                     [("A", { state := .STOPPED, inFlightRequests := 0 })] })],
               lastActiveGroup := some "G",
               shutdown := false }, "G", "A") := by
  rfl

/-- Claim C1, amended: for every successful manager-level swap, the
returned pair is the resolved model id together with its owning group
(found by the alias-then-models rule and the first-group-containing-it
rule), and the target's own Process is returned exactly as it was —
`swapProcessGroup` never invokes `start`, so the target is left in its
prior state; the endpoint layer starts it afterwards when needed. -/
theorem swap_returns_group_without_starting (st : ManagerSt) (req : String)
    (st' : ManagerSt) (gid rm : String)
    (h : ProcessManager.swapProcessGroup st req = .ok (st', gid, rm)) :
    ProcessManager.realNameForSwap st.cfg req = some rm
    ∧ ProcessManager.findGroupByModelName st.cfg rm = some gid
    ∧ lookupProcess st' gid rm = lookupProcess st gid rm := by
  unfold ProcessManager.swapProcessGroup at h
  split at h
  · exact absurd h (by simp)
  next rm2 hr =>
    split at h
    · exact absurd h (by simp)
    next gid2 hg =>
      simp only [Except.ok.injEq, Prod.mk.injEq] at h
      obtain ⟨hst, hgid, hrm⟩ := h
      subst hgid
      subst hrm
      refine ⟨hr, hg, ?_⟩
      rw [← hst]
      simp only [lookupProcess]
      rw [lookupA_updateAssoc_self]
      have hmb : ∀ (o : Option ProcessGroupSt),
          (o.map (fun g => { g with lastUsedProcess := rm2 })).bind
              (fun g => lookupA g.processes rm2)
            = o.bind (fun g => lookupA g.processes rm2) := by
        intro o
        cases o <;> rfl
      rw [hmb, withinGroupStop_lookup_target]
      by_cases hex : exclusiveOf st.cfg gid2 = true
      · rw [if_pos hex, lookupA_stopOtherNonPersistentGroups,
          lookupA_crossGroupStop]
      · rw [if_neg hex, lookupA_crossGroupStop]

/-- Witness for `swap_returns_group_without_starting` on the concrete
one-model manager. -/
theorem swap_returns_group_without_starting_witness :
    ProcessManager.swapProcessGroup stA "A"
        = .ok ({ cfg := cfgA,
                 processGroups := [("G",
                   { lastUsedProcess := "A",
                     processes :=
                       [("A", { state := .STOPPED, inFlightRequests := 0 })] })],
                 lastActiveGroup := some "G",
                 shutdown := false }, "G", "A")
    ∧ (ProcessManager.realNameForSwap stA.cfg "A" = some "A"
        ∧ ProcessManager.findGroupByModelName stA.cfg "A" = some "G"
        ∧ lookupProcess
            { cfg := cfgA,
              processGroups := [("G",
                { lastUsedProcess := "A",
                  processes :=
                    [("A", { state := .STOPPED, inFlightRequests := 0 })] })],
              lastActiveGroup := some "G",
              shutdown := false } "G" "A"
          = lookupProcess stA "G" "A") :=
  ⟨rfl,
   swap_returns_group_without_starting stA "A"
     { cfg := cfgA,
       processGroups := [("G",
         { lastUsedProcess := "A",
           processes := [("A", { state := .STOPPED, inFlightRequests := 0 })] })],
       lastActiveGroup := some "G",
       shutdown := false } "G" "A" rfl⟩

/-! ### Claim C3 — lastActiveGroup and persistent groups -/

/-- Counterexample for claim C3: model "A" lives in the persistent group
"P"; a successful swap for "A" sets `lastActiveGroup` to "P" anyway —
the source assigns `this.lastActiveGroup = processGroup` with no
persistence check, so a persistent group does become `lastActiveGroup`. -/
theorem persistent_group_becomes_lastActive :
    persistentOf cfgP "P" = true
    ∧ (ProcessManager.swapProcessGroup stP "A").map (fun r => r.1.lastActiveGroup)
        = .ok (some "P") := by
  exact ⟨by decide, rfl⟩

/-- Claim C3, amended: every successful manager-level swap sets
`lastActiveGroup` to the target group unconditionally — also when the
target group is persistent. -/
theorem swap_sets_lastActiveGroup_unconditionally (st : ManagerSt) (req : String)
    (st' : ManagerSt) (gid rm : String)
    (h : ProcessManager.swapProcessGroup st req = .ok (st', gid, rm)) :
    st'.lastActiveGroup = some gid := by
  unfold ProcessManager.swapProcessGroup at h
  split at h
  · exact absurd h (by simp)
  · split at h
    · exact absurd h (by simp)
    · simp only [Except.ok.injEq, Prod.mk.injEq] at h
      obtain ⟨hst, hgid, hrm⟩ := h
      subst hgid
      rw [← hst]

/-- Witness for `swap_sets_lastActiveGroup_unconditionally` on the
persistent-group manager. -/
theorem swap_sets_lastActiveGroup_unconditionally_witness :
    ProcessManager.swapProcessGroup stP "A"
        = .ok ({ cfg := cfgP,
                 processGroups := [("P",
                   { lastUsedProcess := "A",
                     processes :=
                       [("A", { state := .STOPPED, inFlightRequests := 0 })] })],
                 lastActiveGroup := some "P",
                 shutdown := false }, "P", "A")
    ∧ ({ cfg := cfgP,
         processGroups := [("P",
           { lastUsedProcess := "A",
             processes :=
               [("A", { state := .STOPPED, inFlightRequests := 0 })] })],
         lastActiveGroup := some "P",
         shutdown := false } : ManagerSt).lastActiveGroup = some "P" :=
  ⟨rfl,
   swap_sets_lastActiveGroup_unconditionally stP "A"
     { cfg := cfgP,
       processGroups := [("P",
         { lastUsedProcess := "A",
           processes := [("A", { state := .STOPPED, inFlightRequests := 0 })] })],
       lastActiveGroup := some "P",
       shutdown := false } "P" "A" rfl⟩

/-! ### Claim C5 — swap after shutdownAll -/

/-- Counterexample for claim C5: after `shutdownAll` has set the one-way
`shutdown` flag, a swap for "A" does not fail with any error — it
resolves, runs its stop branches (all no-ops on SHUTDOWN processes) and
returns the group and resolved model as usual, because
`swapProcessGroup` never checks the flag. -/
theorem swap_after_shutdownAll_not_rejected :
    (ProcessManager.shutdownAll stA).shutdown = true
    ∧ (ProcessManager.swapProcessGroup (ProcessManager.shutdownAll stA) "A").map
          (fun r => (r.2.1, r.2.2))
        = .ok ("G", "A") := by
  exact ⟨by decide, rfl⟩

/-- Claim C5, amended: after `shutdownAll`, a manager-level swap whose
requested name still resolves succeeds — returning the target group and
resolved model id — instead of failing with a SHUTTING_DOWN error; the
source has no such check (`SwapError` has no shutting-down case at
all). -/
theorem swap_after_shutdown_succeeds (st : ManagerSt) (req rm gid : String)
    (h1 : ProcessManager.realNameForSwap st.cfg req = some rm)
    (h2 : ProcessManager.findGroupByModelName st.cfg rm = some gid) :
    (ProcessManager.swapProcessGroup (ProcessManager.shutdownAll st) req).map
        (fun r => (r.2.1, r.2.2))
      = .ok (gid, rm) := by
  have hcfg : (ProcessManager.shutdownAll st).cfg = st.cfg := rfl
  simp [ProcessManager.swapProcessGroup, hcfg, h1, h2, Except.map]

/-- Witness for `swap_after_shutdown_succeeds` on the one-model
manager. -/
theorem swap_after_shutdown_succeeds_witness :
    (ProcessManager.realNameForSwap stA.cfg "A" = some "A"
      ∧ ProcessManager.findGroupByModelName stA.cfg "A" = some "G")
    ∧ (ProcessManager.swapProcessGroup (ProcessManager.shutdownAll stA) "A").map
          (fun r => (r.2.1, r.2.2))
        = .ok ("G", "A") :=
  ⟨⟨by decide, by decide⟩,
   swap_after_shutdown_succeeds stA "A" "A" "G" (by decide) (by decide)⟩

/-! ### Claim C9 — PORT assignment in loadConfig -/

theorem assignPorts_ok_ids (n : Nat) (ms : List ModelPortInfo)
    (l : List (String × Option Nat)) (h : assignPorts n ms = .ok l) :
    l.map Prod.fst = ms.map ModelPortInfo.id := by
  induction ms generalizing n l with
  | nil =>
      injection h with h
      subst h
      rfl
  | cons m rest ih =>
      simp only [assignPorts] at h
      by_cases hc : (m.cmdHasPort || m.proxyHasPort) = true
      · rw [if_pos hc] at h
        by_cases hc2 : (!m.cmdHasPort && m.proxyHasPort) = true
        · rw [if_pos hc2] at h
          exact absurd h (by simp)
        · rw [if_neg hc2] at h
          cases hrec : assignPorts (n + 1) rest with
          | error e => rw [hrec] at h; exact absurd h (by simp)
          | ok tail =>
              rw [hrec] at h
              simp only [Except.ok.injEq] at h
              subst h
              simp [ih (n + 1) tail hrec]
      · rw [if_neg hc] at h
        cases hrec : assignPorts n rest with
        | error e => rw [hrec] at h; exact absurd h (by simp)
        | ok tail =>
            rw [hrec] at h
            simp only [Except.ok.injEq] at h
            subst h
            simp [ih n tail hrec]

theorem assignPorts_ok_ports (n : Nat) (ms : List ModelPortInfo)
    (l : List (String × Option Nat)) (h : assignPorts n ms = .ok l) :
    portsOf l = List.range' n (countPortModels ms) := by
  induction ms generalizing n l with
  | nil =>
      injection h with h
      subst h
      rfl
  | cons m rest ih =>
      simp only [assignPorts] at h
      by_cases hc : (m.cmdHasPort || m.proxyHasPort) = true
      · rw [if_pos hc] at h
        by_cases hc2 : (!m.cmdHasPort && m.proxyHasPort) = true
        · rw [if_pos hc2] at h
          exact absurd h (by simp)
        · rw [if_neg hc2] at h
          cases hrec : assignPorts (n + 1) rest with
          | error e => rw [hrec] at h; exact absurd h (by simp)
          | ok tail =>
              rw [hrec] at h
              simp only [Except.ok.injEq] at h
              subst h
              rw [show countPortModels (m :: rest) = countPortModels rest + 1 from by
                    simp [countPortModels, List.filter_cons, hc],
                  List.range'_succ]
              have htail := ih (n + 1) tail hrec
              simp only [portsOf] at htail ⊢
              simp [List.filterMap_cons, htail]
      · rw [if_neg hc] at h
        cases hrec : assignPorts n rest with
        | error e => rw [hrec] at h; exact absurd h (by simp)
        | ok tail =>
            rw [hrec] at h
            simp only [Except.ok.injEq] at h
            subst h
            rw [show countPortModels (m :: rest) = countPortModels rest from by
                  simp [countPortModels, List.filter_cons, hc]]
            have htail := ih n tail hrec
            simp only [portsOf] at htail ⊢
            simp [List.filterMap_cons, htail]

theorem assignPorts_ok_no_proxy_only (n : Nat) (ms : List ModelPortInfo)
    (l : List (String × Option Nat)) (h : assignPorts n ms = .ok l) :
    ∀ m ∈ ms, m.proxyHasPort = true → m.cmdHasPort = true := by
  induction ms generalizing n l with
  | nil => intro m hm; exact absurd hm (by simp)
  | cons m rest ih =>
      intro m2 hm2 hp
      simp only [assignPorts] at h
      by_cases hc : (m.cmdHasPort || m.proxyHasPort) = true
      · rw [if_pos hc] at h
        by_cases hc2 : (!m.cmdHasPort && m.proxyHasPort) = true
        · rw [if_pos hc2] at h
          exact absurd h (by simp)
        · rw [if_neg hc2] at h
          rcases List.mem_cons.mp hm2 with rfl | hm2
          · rcases Bool.not_eq_true _ |>.mp hc2 |> fun hf => hf with hf
            cases hcmd : m2.cmdHasPort with
            | true => rfl
            | false =>
                exfalso
                apply hc2
                simp [hcmd, hp]
          · cases hrec : assignPorts (n + 1) rest with
            | error e => rw [hrec] at h; exact absurd h (by simp)
            | ok tail => exact ih (n + 1) tail hrec m2 hm2 hp
      · rw [if_neg hc] at h
        rcases List.mem_cons.mp hm2 with rfl | hm2
        · exfalso
          apply hc
          simp [hp]
        · cases hrec : assignPorts n rest with
          | error e => rw [hrec] at h; exact absurd h (by simp)
          | ok tail => exact ih n tail hrec m2 hm2 hp

/-- Claim C9: when `loadConfig` accepts a configuration, the port pass
returns one entry per model (PORT is resolved exactly once per model, in
processing order), the resolved ports are exactly `startPort,
startPort+1, …` handed out monotonically to the models that reference
PORT, no two models share a resolved port, and no accepted model uses
PORT in its proxy without using it in its cmd — such a model is rejected
as a fatal configuration error. -/
theorem port_assignment_correct (startPort : Nat) (ms : List ModelPortInfo)
    (l : List (String × Option Nat)) (h : assignPorts startPort ms = .ok l) :
    l.map Prod.fst = ms.map ModelPortInfo.id
    ∧ portsOf l = List.range' startPort (countPortModels ms)
    ∧ (portsOf l).Nodup
    ∧ ∀ m ∈ ms, m.proxyHasPort = true → m.cmdHasPort = true := by
  refine ⟨assignPorts_ok_ids startPort ms l h, assignPorts_ok_ports startPort ms l h,
    ?_, assignPorts_ok_no_proxy_only startPort ms l h⟩
  rw [assignPorts_ok_ports startPort ms l h]
  exact List.nodup_range' startPort (countPortModels ms)

/-- A three-model port fixture for the witness below. -/
def msW : List ModelPortInfo :=
  [{ id := "a", cmdHasPort := true, proxyHasPort := true },
   { id := "b", cmdHasPort := false, proxyHasPort := false },
   { id := "c", cmdHasPort := true, proxyHasPort := false }]

/-- The port assignment the fixture receives. -/
def lW : List (String × Option Nat) :=
  [("a", some 5800), ("b", none), ("c", some 5801)]

/-- Witness for `port_assignment_correct` on three concrete models. -/
theorem port_assignment_correct_witness :
    assignPorts 5800 msW = .ok lW
    ∧ (lW.map Prod.fst = msW.map ModelPortInfo.id
        ∧ portsOf lW = List.range' 5800 (countPortModels msW)
        ∧ (portsOf lW).Nodup
        ∧ ∀ m ∈ msW, m.proxyHasPort = true → m.cmdHasPort = true) :=
  ⟨rfl, port_assignment_correct 5800 msW lW rfl⟩

end ModelSwap
